import Mathlib

/-
  Verification of the ai-food-log nutrition core.

  Two layers are embedded:

  1. `AIFoodLog.Svc` - a shallow embedding of the service code present in
     src/src/food_logger/food_logger_service.py (the dict-keyed
     calculate_scaling_factor / scale_nutrition / process_raw_foods /
     analyze_meal pipeline).  Python dicts with possibly missing keys are
     modelled by structures with Option-valued fields; numeric values are
     modelled by rationals; the per-record try/except KeyError drop is
     modelled by Option-returning record processing.

  2. `AIFoodLog.Spec` - the final, schema-validated serving resolver and
     meal aggregator.  The repository ships its data model (models.py),
     its callers (the CLI entry point and the output writers) and its unit
     tests (tests/unit/test_service.py, tests/unit/test_calculation_logic.py,
     which exercise FoodLoggerService.analyze_meal_from_data on records
     carrying standard_serving/size/alt_size/consumed/servings-hint keys),
     but the service implementation itself is not part of the snapshot,
     so these definitions are modelled from the specification text.
-/

namespace AIFoodLog

namespace Svc

/-- The UNIT_CONVERSIONS class table of FoodLoggerService: factors to grams
and to milliliters, with count units mapped to 1. -/
def UNIT_CONVERSIONS : List (String × ℚ) :=
  [("g", 1), ("kg", 1000), ("oz", 2835/100), ("lb", 45359/100),
   ("ml", 1), ("l", 1000), ("cup", 240), ("tbsp", 15), ("tsp", 5),
   ("piece", 1), ("slice", 1), ("medium", 1), ("large", 1), ("small", 1),
   ("scoop", 1)]

/-- Membership and lookup in the UNIT_CONVERSIONS dict. -/
def unitFactor (u : String) : Option ℚ :=
  UNIT_CONVERSIONS.lookup u

/-- A serving dict as produced by the analyzer for the dict-keyed service:
the amount/unit keys and the eleven flat nutrition keys, each possibly
absent (the Python dict may lack any of them). -/
structure RawServing where
  amount : Option ℚ := none
  unit : Option String := none
  calories : Option ℚ := none
  protein_g : Option ℚ := none
  carbs_g : Option ℚ := none
  fat_g : Option ℚ := none
  fiber_g : Option ℚ := none
  sugar_g : Option ℚ := none
  sodium_mg : Option ℚ := none
  potassium_mg : Option ℚ := none
  vitamin_c_mg : Option ℚ := none
  calcium_mg : Option ℚ := none
  iron_mg : Option ℚ := none
deriving DecidableEq, Inhabited

/-- FoodLoggerService.calculate_scaling_factor.  The four dict reads come
first; a missing key raises KeyError, which the function catches itself and
turns into the 1.0 fallback (the catch-all branch of the match).  Branch 1
converts both quantities through UNIT_CONVERSIONS, branch 2 compares equal
unconvertible units directly, branch 3 is the warn-and-ratio fallback; each
division is guarded by a strict positivity test on its denominator. -/
def calculate_scaling_factor (standard_serving user_consumed : RawServing) : ℚ :=
  match standard_serving.amount, standard_serving.unit,
        user_consumed.amount, user_consumed.unit with
  | some standard_amount, some standard_unit, some user_amount, some user_unit =>
    if (unitFactor standard_unit).isSome ∧ (unitFactor user_unit).isSome then
      let standard_base := standard_amount * (unitFactor standard_unit).getD 0
      let user_base := user_amount * (unitFactor user_unit).getD 0
      if standard_base > 0 then user_base / standard_base else 1
    else if standard_unit = user_unit then
      if standard_amount > 0 then user_amount / standard_amount else 1
    else
      if standard_amount > 0 then user_amount / standard_amount else 1
  | _, _, _, _ => 1

/-- The nutrition_keys list of scale_nutrition, in source order. -/
def nutrition_keys : List String :=
  ["calories", "protein_g", "carbs_g", "fat_g", "fiber_g", "sugar_g",
   "sodium_mg", "potassium_mg", "vitamin_c_mg", "calcium_mg", "iron_mg"]

/-- The dict read standard_serving.get(key) for the eleven nutrition keys. -/
def nutrGet (s : RawServing) (k : String) : Option ℚ :=
  if k = "calories" then s.calories
  else if k = "protein_g" then s.protein_g
  else if k = "carbs_g" then s.carbs_g
  else if k = "fat_g" then s.fat_g
  else if k = "fiber_g" then s.fiber_g
  else if k = "sugar_g" then s.sugar_g
  else if k = "sodium_mg" then s.sodium_mg
  else if k = "potassium_mg" then s.potassium_mg
  else if k = "vitamin_c_mg" then s.vitamin_c_mg
  else if k = "calcium_mg" then s.calcium_mg
  else if k = "iron_mg" then s.iron_mg
  else none

/-- FoodLoggerService.scale_nutrition: loops over nutrition_keys, reading
each key with default 0 and multiplying by the scaling factor, building the
scaled_nutrition dict (modelled as an association list in loop order). -/
def scale_nutrition (standard_serving : RawServing) (scaling_factor : ℚ) :
    List (String × ℚ) :=
  nutrition_keys.map fun key =>
    (key, (nutrGet standard_serving key).getD 0 * scaling_factor)

/-- A raw per-food record handed to process_raw_foods: the five top-level
dict keys the loop body reads, each possibly absent. -/
structure RawFood where
  food_name : Option String := none
  standard_serving : Option RawServing := none
  user_consumed : Option RawServing := none
  confidence_score : Option ℚ := none
  source_notes : Option String := none
deriving DecidableEq

/-- The ProcessedFood dataclass of the service file. -/
structure ProcessedFood where
  food_name : String
  standard_serving : RawServing
  user_consumed : RawServing
  calculated_nutrition : List (String × ℚ)
  scaling_factor : ℚ
  confidence_score : ℚ
  source_notes : String
deriving DecidableEq, Inhabited

/-- One iteration of the process_raw_foods loop body: a KeyError on any of
the five top-level reads is caught by the per-record except clause and the
record is skipped (none); otherwise the record is kept with its computed
scaling factor and scaled nutrition. -/
def processRawFood (raw_food : RawFood) : Option ProcessedFood :=
  match raw_food.standard_serving, raw_food.user_consumed, raw_food.food_name,
        raw_food.confidence_score, raw_food.source_notes with
  | some s, some u, some name, some conf, some notes =>
    let scaling_factor := calculate_scaling_factor s u
    some { food_name := name
           standard_serving := s
           user_consumed := u
           calculated_nutrition := scale_nutrition s scaling_factor
           scaling_factor := scaling_factor
           confidence_score := conf
           source_notes := notes }
  | _, _, _, _, _ => none

/-- FoodLoggerService.process_raw_foods: the append-or-continue loop. -/
def process_raw_foods (raw_foods : List RawFood) : List ProcessedFood :=
  raw_foods.filterMap processRawFood

/-- The MealAnalysis dataclass (the timestamp field, a wall-clock side
effect, is not modelled). -/
structure MealAnalysis where
  processed_foods : List ProcessedFood
  total_calories : ℚ
  total_protein : ℚ
  total_carbs : ℚ
  total_fat : ℚ
  total_fiber : ℚ
  total_sugar : ℚ
  total_sodium : ℚ
  total_potassium : ℚ
  total_vitamin_c : ℚ
  total_calcium : ℚ
  total_iron : ℚ
  avg_confidence : ℚ
deriving DecidableEq, Inhabited

/-- The totals accumulation of analyze_meal for one key:
totals[key] += nutrition.get(key, 0) over all processed foods. -/
def totalKey (key : String) (foods : List ProcessedFood) : ℚ :=
  (foods.map fun f => (f.calculated_nutrition.lookup key).getD 0).sum

/-- FoodLoggerService.analyze_meal, after the external analyzer call: the
already-returned raw food list is the input.  An empty analyzer result or
an empty survivor list yields None; otherwise the eleven totals and the
average confidence are computed from the surviving foods. -/
def analyze_meal (raw_foods : List RawFood) : Option MealAnalysis :=
  if raw_foods.isEmpty then none
  else
    let processed_foods := process_raw_foods raw_foods
    if processed_foods.isEmpty then none
    else
      some { processed_foods := processed_foods
             total_calories := totalKey "calories" processed_foods
             total_protein := totalKey "protein_g" processed_foods
             total_carbs := totalKey "carbs_g" processed_foods
             total_fat := totalKey "fat_g" processed_foods
             total_fiber := totalKey "fiber_g" processed_foods
             total_sugar := totalKey "sugar_g" processed_foods
             total_sodium := totalKey "sodium_mg" processed_foods
             total_potassium := totalKey "potassium_mg" processed_foods
             total_vitamin_c := totalKey "vitamin_c_mg" processed_foods
             total_calcium := totalKey "calcium_mg" processed_foods
             total_iron := totalKey "iron_mg" processed_foods
             avg_confidence :=
               if processed_foods.isEmpty then 0
               else (processed_foods.map (·.confidence_score)).sum /
                 (processed_foods.length : ℚ) }

/-- Survival predicate of the process_raw_foods loop body: all five
top-level keys are present. -/
def is_well_formed (r : RawFood) : Bool :=
  r.standard_serving.isSome && r.user_consumed.isSome && r.food_name.isSome
    && r.confidence_score.isSome && r.source_notes.isSome

/-- The ProcessedFood a well-formed record is turned into (total variant,
with inert defaults for the impossible missing cases). -/
def mk_processed (r : RawFood) : ProcessedFood :=
  let s := r.standard_serving.getD {}
  let u := r.user_consumed.getD {}
  let sf := calculate_scaling_factor s u
  { food_name := r.food_name.getD ""
    standard_serving := s
    user_consumed := u
    calculated_nutrition := scale_nutrition s sf
    scaling_factor := sf
    confidence_score := r.confidence_score.getD 0
    source_notes := r.source_notes.getD "" }

/-- A sample standard-serving dict with some nutrition keys present. -/
def sampleServing : RawServing :=
  { amount := some 100, unit := some "g", calories := some 165,
    protein_g := some 31, carbs_g := some 0, fat_g := some (36/10) }

/-- Two well-formed raw foods whose scaled calories come to 100 and 250:
food A consumes exactly its 100 g standard serving (factor 1), food B
consumes 2 pieces of a 1-piece 125-calorie serving (factor 2). -/
def twoFoodRaws : List RawFood :=
  [{ food_name := some "A",
     standard_serving :=
       some { amount := some 100, unit := some "g", calories := some 100 },
     user_consumed := some { amount := some 100, unit := some "g" },
     confidence_score := some 8,
     source_notes := some "" },
   { food_name := some "B",
     standard_serving :=
       some { amount := some 1, unit := some "piece", calories := some 125 },
     user_consumed := some { amount := some 2, unit := some "piece" },
     confidence_score := some 6,
     source_notes := some "" }]

/-- A standard-serving dict whose unit key is missing. -/
def missingUnitServing : RawServing :=
  { amount := some 100, calories := some 89 }

/-- A consumed dict of one piece. -/
def pieceServing : RawServing :=
  { amount := some 1, unit := some "piece" }

/-- A raw food with all five top-level keys present but a missing nested
unit key inside its standard_serving dict. -/
def missingUnitRaw : RawFood :=
  { food_name := some "Banana", standard_serving := some missingUnitServing,
    user_consumed := some pieceServing, confidence_score := some 8,
    source_notes := some "" }

/-- The two well-formed raw foods followed by a malformed one that lacks
every key except its name. -/
def mixedRaws : List RawFood :=
  twoFoodRaws ++ [{ food_name := some "C" }]

end Svc

namespace Spec

/-- A serving amount and unit (models.py ServingSize; spec Quantity). -/
structure Quantity where
  amount : ℚ
  unit : String
deriving DecidableEq

/-- The eleven tracked nutrient quantities (models.py NutritionalInfo). -/
structure NutrientVector where
  calories : ℚ
  protein : ℚ
  carbs : ℚ
  fat : ℚ
  fiber : ℚ
  sugar : ℚ
  sodium : ℚ
  potassium : ℚ
  vitamin_c : ℚ
  calcium : ℚ
  iron : ℚ
deriving DecidableEq, Inhabited

/-- A reference serving: primary size, optional alternate size, nutrient
vector anchored to the primary size (models.py StandardServing). -/
structure ReferenceServing where
  primary : Quantity
  alternate : Option Quantity
  nutrients : NutrientVector
deriving DecidableEq

/-- The servings-resolution hint produced by the upstream analyzer:
a calculable flag plus an optional guess. -/
structure ServingsHint where
  calculable : Bool
  guess : Option ℚ
deriving DecidableEq

/-- Physical base of a measurement unit: mass or volume.  Count units and
unrecognized tokens have none. -/
inductive UnitBase where
  | mass
  | volume
deriving DecidableEq

/-- The unit registry classification: mass units convert to grams, volume
units to milliliters, every other token is an unconvertible count. -/
def unitBase (u : String) : Option UnitBase :=
  if u = "g" ∨ u = "kg" ∨ u = "oz" ∨ u = "lb" then some .mass
  else if u = "ml" ∨ u = "l" ∨ u = "cup" ∨ u = "tbsp" ∨ u = "tsp" then
    some .volume
  else none

/-- Two unit tokens share a commensurable physical base exactly when both
are classified and their bases agree. -/
def commensurable (u v : String) : Bool :=
  match unitBase u, unitBase v with
  | some a, some b => decide (a = b)
  | _, _ => false

/-- Third and fourth tiers of the serving resolver: if an alternate size is
present and matches the consumed unit with a positive amount, divide by it;
otherwise fall back to exactly one reference serving. -/
def resolveByAlternate (reference : ReferenceServing) (consumed : Quantity) : ℚ :=
  match reference.alternate with
  | some alt =>
    if consumed.unit = alt.unit ∧ alt.amount > 0 then consumed.amount / alt.amount
    else 1
  | none => 1

/-- Modelled from the spec: FoodLoggerService.analyze_meal_from_data and its
serving resolver are exercised by tests/unit/test_service.py and
tests/unit/test_calculation_logic.py and consumed by the CLI entry point,
but that service implementation is not part of the src snapshot (the
food_logger_service.py present is the earlier dict-keyed redesign).  This
definition follows the resolveServings contract of spec section 4.2: tier 1
trusts a non-calculable hint (guess, else 1.0); tier 2 divides by a
unit-matching positive primary amount; tier 3 divides by a unit-matching
positive alternate amount; tier 4 returns the 1.0 fallback. -/
def resolveServings (reference : ReferenceServing) (consumed : Quantity)
    (hint : ServingsHint) : ℚ :=
  if hint.calculable = false then hint.guess.getD 1
  else if consumed.unit = reference.primary.unit ∧ reference.primary.amount > 0 then
    consumed.amount / reference.primary.amount
  else resolveByAlternate reference consumed

/-- Division that demands a strictly positive denominator, reporting
failure (the division error the resolver must never hit) otherwise. -/
def divPos (a b : ℚ) : Option ℚ :=
  if 0 < b then some (a / b) else none

/-- Tiers 3 and 4 of the resolver with every division replaced by the
checked division. -/
def resolveByAlternateChecked (reference : ReferenceServing)
    (consumed : Quantity) : Option ℚ :=
  match reference.alternate with
  | some alt =>
    if consumed.unit = alt.unit ∧ alt.amount > 0 then divPos consumed.amount alt.amount
    else some 1
  | none => some 1

/-- The serving resolver with every division replaced by the checked
division: it returns none exactly when some evaluated division would have a
non-positive denominator. -/
def resolveServingsChecked (reference : ReferenceServing) (consumed : Quantity)
    (hint : ServingsHint) : Option ℚ :=
  if hint.calculable = false then some (hint.guess.getD 1)
  else if consumed.unit = reference.primary.unit ∧ reference.primary.amount > 0 then
    divPos consumed.amount reference.primary.amount
  else resolveByAlternateChecked reference consumed

/-- Modelled from the spec: the nutrient scaler of section 4.3 multiplies
each of the eleven fields by the factor independently (absent source fields
were already defaulted to 0 at record parse time). -/
def scaleNutrients (v : NutrientVector) (factor : ℚ) : NutrientVector :=
  { calories := v.calories * factor
    protein := v.protein * factor
    carbs := v.carbs * factor
    fat := v.fat * factor
    fiber := v.fiber * factor
    sugar := v.sugar * factor
    sodium := v.sodium * factor
    potassium := v.potassium * factor
    vitamin_c := v.vitamin_c * factor
    calcium := v.calcium * factor
    iron := v.iron * factor }

/-- What the user consumed: size, resolved servings count, scaled nutrition
(models.py Consumed). -/
structure ConsumedAmount where
  size : Quantity
  resolvedServings : ℚ
  nutrients : NutrientVector
deriving DecidableEq

/-- A fully processed food item (models.py ProcessedFood). -/
structure ProcessedFood where
  name : String
  userDescription : String
  reference : ReferenceServing
  consumed : ConsumedAmount
  confidenceScore : ℚ
  sourceNotes : String
deriving DecidableEq

/-- A meal analysis: processed foods plus their nutrient totals
(models.py MealAnalysis). -/
structure MealAnalysis where
  foods : List ProcessedFood
  totals : NutrientVector
deriving DecidableEq, Inhabited

/-- A scalar JSON leaf of the analyzer response: a number or a string.  A
string sitting where a number is required is the unparseable numeric value
of spec section 4.4. -/
inductive JVal where
  | num (q : ℚ)
  | str (s : String)
deriving DecidableEq

/-- A raw size dict of the analyzer response: amount and unit keys, each
possibly absent. -/
structure RawSize where
  amount : Option JVal := none
  unit : Option String := none
deriving DecidableEq

/-- A raw nutrition dict: the eleven nutrient keys, each possibly absent. -/
structure RawNutrition where
  calories : Option JVal := none
  protein : Option JVal := none
  carbs : Option JVal := none
  fat : Option JVal := none
  fiber : Option JVal := none
  sugar : Option JVal := none
  sodium : Option JVal := none
  potassium : Option JVal := none
  vitamin_c : Option JVal := none
  calcium : Option JVal := none
  iron : Option JVal := none
deriving DecidableEq

/-- A raw standard_serving dict: size, nutrition and optional alt_size. -/
structure RawReference where
  size : Option RawSize := none
  nutrition : Option RawNutrition := none
  alt_size : Option RawSize := none
deriving DecidableEq

/-- A raw servings hint dict: the calculable flag plus optional guess. -/
structure RawHint where
  calculable : Option Bool := none
  guess : Option JVal := none
deriving DecidableEq

/-- A raw per-food record of the analyzer response, with every key possibly
absent (spec section 6 lists the expected contents). -/
structure RawRecord where
  food_name : Option String := none
  user_description : Option String := none
  standard_serving : Option RawReference := none
  consumed : Option RawSize := none
  servings : Option RawHint := none
  confidence_score : Option JVal := none
  source_notes : Option String := none
deriving DecidableEq

/-- Parse a numeric field: a missing numeric field defaults to 0 (spec
section 6); a non-numeric value is unparseable and fails. -/
def parseNum (v : Option JVal) : Option ℚ :=
  match v with
  | none => some 0
  | some (.num q) => some q
  | some (.str _) => none

/-- Parse a size dict into a Quantity: the unit key is required, the amount
is a numeric field. -/
def parseQuantity (s : RawSize) : Option Quantity := do
  let a ← parseNum s.amount
  let u ← s.unit
  pure { amount := a, unit := u }

/-- Parse a nutrition dict into a NutrientVector, defaulting each missing
field to 0 and failing on any unparseable value. -/
def parseNutrition (n : RawNutrition) : Option NutrientVector := do
  let calories ← parseNum n.calories
  let protein ← parseNum n.protein
  let carbs ← parseNum n.carbs
  let fat ← parseNum n.fat
  let fiber ← parseNum n.fiber
  let sugar ← parseNum n.sugar
  let sodium ← parseNum n.sodium
  let potassium ← parseNum n.potassium
  let vitamin_c ← parseNum n.vitamin_c
  let calcium ← parseNum n.calcium
  let iron ← parseNum n.iron
  pure { calories, protein, carbs, fat, fiber, sugar, sodium, potassium,
         vitamin_c, calcium, iron }

/-- Parse the optional alternate size: absence is fine, a present but
malformed alternate fails the record. -/
def parseAlternate (a : Option RawSize) : Option (Option Quantity) :=
  match a with
  | none => some none
  | some s => (parseQuantity s).map some

/-- Parse the servings hint: the structure and its calculable flag are
required, the guess is optional but must be numeric when present. -/
def parseHint (h : RawHint) : Option ServingsHint := do
  let calculable ← h.calculable
  let guess ←
    match h.guess with
    | none => some none
    | some (.num q) => some (some q)
    | some (.str _) => none
  pure { calculable, guess }

/-- Modelled from the spec: the per-record step of the meal aggregator of
section 4.4 (the body of the missing analyze_meal_from_data loop): extract
the reference serving, consumed quantity and resolver hint, failing - which
drops the record - on a missing required key or an unparseable numeric
value; then resolve the servings count, scale the nutrients and build the
ProcessedFood. -/
def parseRecord (r : RawRecord) : Option ProcessedFood := do
  let name ← r.food_name
  let desc ← r.user_description
  let rawRef ← r.standard_serving
  let rawSize ← rawRef.size
  let primary ← parseQuantity rawSize
  let rawNutr ← rawRef.nutrition
  let nutrients ← parseNutrition rawNutr
  let alternate ← parseAlternate rawRef.alt_size
  let rawCons ← r.consumed
  let consumedSize ← parseQuantity rawCons
  let rawHint ← r.servings
  let hint ← parseHint rawHint
  let conf ← parseNum r.confidence_score
  let notes ← r.source_notes
  let reference : ReferenceServing :=
    { primary := primary, alternate := alternate, nutrients := nutrients }
  let factor := resolveServings reference consumedSize hint
  pure { name := name
         userDescription := desc
         reference := reference
         consumed := { size := consumedSize
                       resolvedServings := factor
                       nutrients := scaleNutrients nutrients factor }
         confidenceScore := conf
         sourceNotes := notes }

/-- Field-wise sum of two nutrient vectors. -/
def addNV (a b : NutrientVector) : NutrientVector :=
  { calories := a.calories + b.calories
    protein := a.protein + b.protein
    carbs := a.carbs + b.carbs
    fat := a.fat + b.fat
    fiber := a.fiber + b.fiber
    sugar := a.sugar + b.sugar
    sodium := a.sodium + b.sodium
    potassium := a.potassium + b.potassium
    vitamin_c := a.vitamin_c + b.vitamin_c
    calcium := a.calcium + b.calcium
    iron := a.iron + b.iron }

/-- The zero nutrient vector. -/
def zeroNV : NutrientVector :=
  { calories := 0, protein := 0, carbs := 0, fat := 0, fiber := 0, sugar := 0,
    sodium := 0, potassium := 0, vitamin_c := 0, calcium := 0, iron := 0 }

/-- Field-wise sum of the scaled nutrient vectors of the surviving foods. -/
def totalsOf (foods : List ProcessedFood) : NutrientVector :=
  foods.foldr (fun f acc => addNV f.consumed.nutrients acc) zeroNV

/-- Modelled from the spec: the meal aggregator of section 4.4 (the missing
analyze_meal_from_data).  Each raw record is parsed, dropped on failure;
if zero records survive the aggregation fails, otherwise it produces the
MealAnalysis plus the separately reported mean confidence. -/
def aggregate (records : List RawRecord) : Option (MealAnalysis × ℚ) :=
  let foods := records.filterMap parseRecord
  if foods.isEmpty then none
  else
    some ({ foods := foods, totals := totalsOf foods },
      (foods.map (·.confidenceScore)).sum / (foods.length : ℚ))

/-- A sample nutrient vector (the grilled-chicken reference values used by
the test suite). -/
def sampleNV : NutrientVector :=
  { calories := 165, protein := 31, carbs := 0, fat := 36/10, fiber := 0,
    sugar := 0, sodium := 0, potassium := 0, vitamin_c := 0, calcium := 0,
    iron := 0 }

/-- The nutrition dict of the well-formed sample record. -/
def turkeyNutrition : RawNutrition :=
  { calories := some (.num 110), protein := some (.num 25),
    carbs := some (.num 0), fat := some (.num 1) }

/-- A fully well-formed raw record, shaped like the unit-test fixture for
the schema-validated service. -/
def goodRecord : RawRecord :=
  { food_name := some "Turkey breast",
    user_description := some "Turkey breast 121g",
    standard_serving :=
      some { size := some { amount := some (.num 100), unit := some "g" },
             nutrition := some turkeyNutrition,
             alt_size := none },
    consumed := some { amount := some (.num 121), unit := some "g" },
    servings := some { calculable := some true },
    confidence_score := some (.num 9),
    source_notes := some "USDA database" }

/-- A malformed raw record: it lacks the required standard_serving key. -/
def badRecord : RawRecord :=
  { food_name := some "Mystery",
    user_description := some "something",
    consumed := some { amount := some (.num 1), unit := some "cup" },
    servings := some { calculable := some true },
    confidence_score := some (.num 2),
    source_notes := some "" }

end Spec

/-- C1: for every reference serving and consumed quantity whose unit equals
neither the primary unit nor a present alternate unit nor shares a
commensurable physical base with the primary unit, the serving resolver
(with a calculable hint, so that the hint tier does not preempt it) returns
exactly 1.0. -/
theorem C1_no_match_fallback_returns_one (reference : Spec.ReferenceServing)
    (consumed : Spec.Quantity) (hint : Spec.ServingsHint)
    (hcalc : hint.calculable = true)
    (hp : consumed.unit ≠ reference.primary.unit)
    (halt : ∀ alt, reference.alternate = some alt → consumed.unit ≠ alt.unit)
    (_hbase : Spec.commensurable consumed.unit reference.primary.unit = false) :
    Spec.resolveServings reference consumed hint = 1 := by
  unfold Spec.resolveServings
  rw [hcalc]
  simp only [Bool.true_eq_false, if_false]
  rw [if_neg (fun h => hp h.1)]
  unfold Spec.resolveByAlternate
  cases haltEq : reference.alternate with
  | none => rfl
  | some alt => exact if_neg (fun h => halt alt haltEq h.1)

/-- Witness for C1: consumed unit cup against primary unit g with no
alternate resolves to exactly 1.0. -/
theorem C1_no_match_fallback_returns_one_witness :
    Spec.resolveServings ⟨⟨100, "g"⟩, none, Spec.sampleNV⟩ ⟨1, "cup"⟩
      ⟨true, none⟩ = 1 :=
  C1_no_match_fallback_returns_one ⟨⟨100, "g"⟩, none, Spec.sampleNV⟩
    ⟨1, "cup"⟩ ⟨true, none⟩ rfl (by decide) (fun alt h => by cases h)
    (by decide)

/-- C3: whenever the hint says the servings are not calculable, the
resolver returns the guess when present and 1.0 otherwise, regardless of
the reference and consumed contents. -/
theorem C3_hint_override (reference : Spec.ReferenceServing)
    (consumed : Spec.Quantity) (hint : Spec.ServingsHint)
    (hcalc : hint.calculable = false) :
    Spec.resolveServings reference consumed hint = hint.guess.getD 1 := by
  unfold Spec.resolveServings
  rw [hcalc]
  rfl

/-- Witness for C3: calculable false with guess 2.0 returns 2.0 even though
the primary serving unit matches the consumed unit, and calculable false
with no guess returns 1.0. -/
theorem C3_hint_override_witness :
    Spec.resolveServings ⟨⟨100, "g"⟩, none, Spec.sampleNV⟩ ⟨150, "g"⟩
        ⟨false, some 2⟩ = 2
    ∧ Spec.resolveServings ⟨⟨100, "g"⟩, none, Spec.sampleNV⟩ ⟨150, "g"⟩
        ⟨false, none⟩ = 1 :=
  ⟨C3_hint_override ⟨⟨100, "g"⟩, none, Spec.sampleNV⟩ ⟨150, "g"⟩
      ⟨false, some 2⟩ rfl,
    C3_hint_override ⟨⟨100, "g"⟩, none, Spec.sampleNV⟩ ⟨150, "g"⟩
      ⟨false, none⟩ rfl⟩

/-- C4: when the hint is calculable, the primary unit does not match the
consumed unit, and a present alternate matches the consumed unit with a
positive amount, the resolver returns consumed.amount / alternate.amount. -/
theorem C4_alternate_unit_fallback (reference : Spec.ReferenceServing)
    (consumed : Spec.Quantity) (hint : Spec.ServingsHint)
    (alt : Spec.Quantity)
    (hcalc : hint.calculable = true)
    (hp : consumed.unit ≠ reference.primary.unit)
    (haltEq : reference.alternate = some alt)
    (hu : consumed.unit = alt.unit)
    (hpos : alt.amount > 0) :
    Spec.resolveServings reference consumed hint = consumed.amount / alt.amount := by
  unfold Spec.resolveServings
  rw [hcalc]
  simp only [Bool.true_eq_false, if_false]
  rw [if_neg (fun h => hp h.1)]
  unfold Spec.resolveByAlternate
  rw [haltEq]
  exact if_pos ⟨hu, hpos⟩

/-- Witness for C4: primary 30 g mismatched against 2 piece consumed, with
alternate 1 piece present, yields 2 / 1 = 2. -/
theorem C4_alternate_unit_fallback_witness :
    Spec.resolveServings ⟨⟨30, "g"⟩, some ⟨1, "piece"⟩, Spec.sampleNV⟩
      ⟨2, "piece"⟩ ⟨true, none⟩ = 2 := by
  have h := C4_alternate_unit_fallback
    ⟨⟨30, "g"⟩, some ⟨1, "piece"⟩, Spec.sampleNV⟩ ⟨2, "piece"⟩ ⟨true, none⟩
    ⟨1, "piece"⟩ rfl (by decide) rfl rfl (by norm_num)
  rw [h]
  norm_num

/-- C5: when the hint is calculable, the consumed unit equals the primary
unit and the primary amount is strictly positive, the resolver returns
exactly consumed.amount / primary.amount. -/
theorem C5_unit_match_exactness (reference : Spec.ReferenceServing)
    (consumed : Spec.Quantity) (hint : Spec.ServingsHint)
    (hcalc : hint.calculable = true)
    (hu : consumed.unit = reference.primary.unit)
    (hpos : reference.primary.amount > 0) :
    Spec.resolveServings reference consumed hint =
      consumed.amount / reference.primary.amount := by
  unfold Spec.resolveServings
  rw [hcalc]
  simp only [Bool.true_eq_false, if_false]
  exact if_pos ⟨hu, hpos⟩

/-- Witness for C5: primary amount 100, consumed amount 150, same unit,
returns exactly 1.5. -/
theorem C5_unit_match_exactness_witness :
    Spec.resolveServings ⟨⟨100, "g"⟩, none, Spec.sampleNV⟩ ⟨150, "g"⟩
      ⟨true, none⟩ = 3/2 := by
  have h := C5_unit_match_exactness ⟨⟨100, "g"⟩, none, Spec.sampleNV⟩
    ⟨150, "g"⟩ ⟨true, none⟩ rfl rfl (by norm_num)
  rw [h]
  norm_num

/-- C8: every division the resolver evaluates has a strictly positive
denominator (the checked variant, which fails on any division with a
non-positive denominator, always succeeds with the same value), and a zero
reference amount at the matched primary tier is treated as not matched,
falling through to the alternate tier or the final 1.0 fallback. -/
theorem C8_division_guarded_zero_falls_through (reference : Spec.ReferenceServing)
    (consumed : Spec.Quantity) (hint : Spec.ServingsHint) :
    Spec.resolveServingsChecked reference consumed hint =
        some (Spec.resolveServings reference consumed hint)
    ∧ (hint.calculable = true → consumed.unit = reference.primary.unit →
        reference.primary.amount = 0 →
        Spec.resolveServings reference consumed hint =
          Spec.resolveByAlternate reference consumed) := by
  constructor
  · unfold Spec.resolveServingsChecked Spec.resolveServings
    by_cases hcalc : hint.calculable = false
    · rw [if_pos hcalc, if_pos hcalc]
    · rw [if_neg hcalc, if_neg hcalc]
      by_cases hmatch : consumed.unit = reference.primary.unit ∧
          reference.primary.amount > 0
      · rw [if_pos hmatch, if_pos hmatch]
        unfold Spec.divPos
        rw [if_pos hmatch.2]
      · rw [if_neg hmatch, if_neg hmatch]
        unfold Spec.resolveByAlternateChecked Spec.resolveByAlternate
        cases reference.alternate with
        | none => rfl
        | some alt =>
          dsimp only
          by_cases halt : consumed.unit = alt.unit ∧ alt.amount > 0
          · rw [if_pos halt, if_pos halt]
            unfold Spec.divPos
            rw [if_pos halt.2]
          · rw [if_neg halt, if_neg halt]
  · intro hcalc _ hzero
    unfold Spec.resolveServings
    rw [hcalc]
    simp only [Bool.true_eq_false, if_false]
    rw [if_neg (fun h => by rw [hzero] at h; exact absurd h.2 (lt_irrefl 0))]

/-- Witness for C8: on a zero-amount matched primary tier with a matching
positive alternate, the checked resolver succeeds and the value falls
through to the alternate tier. -/
theorem C8_division_guarded_zero_falls_through_witness :
    Spec.resolveServingsChecked ⟨⟨0, "g"⟩, some ⟨2, "g"⟩, Spec.sampleNV⟩
        ⟨6, "g"⟩ ⟨true, none⟩ =
      some (Spec.resolveServings ⟨⟨0, "g"⟩, some ⟨2, "g"⟩, Spec.sampleNV⟩
        ⟨6, "g"⟩ ⟨true, none⟩)
    ∧ Spec.resolveServings ⟨⟨0, "g"⟩, some ⟨2, "g"⟩, Spec.sampleNV⟩
        ⟨6, "g"⟩ ⟨true, none⟩ =
      Spec.resolveByAlternate ⟨⟨0, "g"⟩, some ⟨2, "g"⟩, Spec.sampleNV⟩
        ⟨6, "g"⟩ :=
  ⟨(C8_division_guarded_zero_falls_through ⟨⟨0, "g"⟩, some ⟨2, "g"⟩,
      Spec.sampleNV⟩ ⟨6, "g"⟩ ⟨true, none⟩).1,
    (C8_division_guarded_zero_falls_through ⟨⟨0, "g"⟩, some ⟨2, "g"⟩,
      Spec.sampleNV⟩ ⟨6, "g"⟩ ⟨true, none⟩).2 rfl rfl rfl⟩

/-- Helper: looking up any of the eleven nutrition keys in the scaled dict
yields the source value (default 0) times the factor. -/
theorem scale_nutrition_lookup (s : Svc.RawServing) (f : ℚ) :
    ∀ k ∈ Svc.nutrition_keys,
      (Svc.scale_nutrition s f).lookup k = some ((Svc.nutrGet s k).getD 0 * f) := by
  intro k hk
  fin_cases hk <;> rfl

/-- Helper: a record with all five top-level keys present is processed into
its ProcessedFood. -/
theorem processRawFood_eq_mk (r : Svc.RawFood) (h : Svc.is_well_formed r = true) :
    Svc.processRawFood r = some (Svc.mk_processed r) := by
  unfold Svc.is_well_formed at h
  simp only [Bool.and_eq_true, Option.isSome_iff_exists] at h
  obtain ⟨⟨⟨⟨⟨s, hs⟩, u, hu⟩, n, hn⟩, c, hc⟩, t, ht⟩ := h
  unfold Svc.processRawFood Svc.mk_processed
  rw [hs, hu, hn, hc, ht]
  rfl

/-- Helper: a record missing one of the five top-level keys is dropped. -/
theorem processRawFood_eq_none (r : Svc.RawFood)
    (h : Svc.is_well_formed r = false) : Svc.processRawFood r = none := by
  unfold Svc.is_well_formed at h
  unfold Svc.processRawFood
  cases hs : r.standard_serving <;> cases hu : r.user_consumed <;>
    cases hn : r.food_name <;> cases hc : r.confidence_score <;>
    cases ht : r.source_notes <;> simp_all

/-- C7: the nutrient scaler emits exactly the eleven nutrition keys, and
the value at each key equals the source value - 0 when the key is absent
from the input dict - multiplied by the factor; it is a total pure function
on every serving dict and factor. -/
theorem C7_scale_nutrition_pointwise (s : Svc.RawServing) (factor : ℚ) :
    (Svc.scale_nutrition s factor).map Prod.fst = Svc.nutrition_keys
    ∧ ∀ k ∈ Svc.nutrition_keys,
      (Svc.scale_nutrition s factor).lookup k =
        some ((Svc.nutrGet s k).getD 0 * factor) := by
  constructor
  · rfl
  · exact scale_nutrition_lookup s factor

/-- Witness for C7: scaling a sample serving by 2 keeps the eleven keys and
doubles the calories value. -/
theorem C7_scale_nutrition_pointwise_witness :
    (Svc.scale_nutrition Svc.sampleServing 2).map Prod.fst = Svc.nutrition_keys
    ∧ (Svc.scale_nutrition Svc.sampleServing 2).lookup "calories" =
      some ((Svc.nutrGet Svc.sampleServing "calories").getD 0 * 2) :=
  ⟨(C7_scale_nutrition_pointwise Svc.sampleServing 2).1,
    (C7_scale_nutrition_pointwise Svc.sampleServing 2).2 "calories"
      (List.Mem.head _)⟩

/-- C6: whenever analyze_meal returns an analysis, each of its eleven
totals is the sum over the surviving foods of that nutrient in their scaled
nutrition dicts, and the average confidence is the arithmetic mean of the
surviving confidence scores. -/
theorem C6_totals_and_mean (raw_foods : List Svc.RawFood)
    (m : Svc.MealAnalysis) (hm : Svc.analyze_meal raw_foods = some m) :
    (m.total_calories = (m.processed_foods.map fun f =>
        (f.calculated_nutrition.lookup "calories").getD 0).sum
      ∧ m.total_protein = (m.processed_foods.map fun f =>
        (f.calculated_nutrition.lookup "protein_g").getD 0).sum
      ∧ m.total_carbs = (m.processed_foods.map fun f =>
        (f.calculated_nutrition.lookup "carbs_g").getD 0).sum
      ∧ m.total_fat = (m.processed_foods.map fun f =>
        (f.calculated_nutrition.lookup "fat_g").getD 0).sum
      ∧ m.total_fiber = (m.processed_foods.map fun f =>
        (f.calculated_nutrition.lookup "fiber_g").getD 0).sum
      ∧ m.total_sugar = (m.processed_foods.map fun f =>
        (f.calculated_nutrition.lookup "sugar_g").getD 0).sum
      ∧ m.total_sodium = (m.processed_foods.map fun f =>
        (f.calculated_nutrition.lookup "sodium_mg").getD 0).sum
      ∧ m.total_potassium = (m.processed_foods.map fun f =>
        (f.calculated_nutrition.lookup "potassium_mg").getD 0).sum
      ∧ m.total_vitamin_c = (m.processed_foods.map fun f =>
        (f.calculated_nutrition.lookup "vitamin_c_mg").getD 0).sum
      ∧ m.total_calcium = (m.processed_foods.map fun f =>
        (f.calculated_nutrition.lookup "calcium_mg").getD 0).sum
      ∧ m.total_iron = (m.processed_foods.map fun f =>
        (f.calculated_nutrition.lookup "iron_mg").getD 0).sum)
    ∧ m.avg_confidence = (m.processed_foods.map (·.confidence_score)).sum /
        (m.processed_foods.length : ℚ) := by
  simp only [Svc.analyze_meal] at hm
  split at hm
  · exact Option.noConfusion hm
  split at hm
  · exact Option.noConfusion hm
  next h2 =>
    injection hm with hm
    subst hm
    refine ⟨⟨rfl, rfl, rfl, rfl, rfl, rfl, rfl, rfl, rfl, rfl, rfl⟩, ?_⟩
    simp only [if_neg h2]

/-- Witness for C6: two surviving foods with scaled calories 100 and 250
total 350 calories, with mean confidence 7. -/
theorem C6_totals_and_mean_witness :
    Svc.analyze_meal Svc.twoFoodRaws =
      some ((Svc.analyze_meal Svc.twoFoodRaws).getD default)
    ∧ ((Svc.analyze_meal Svc.twoFoodRaws).getD default).total_calories =
      (((Svc.analyze_meal Svc.twoFoodRaws).getD default).processed_foods.map
        fun f => (f.calculated_nutrition.lookup "calories").getD 0).sum
    ∧ ((Svc.analyze_meal Svc.twoFoodRaws).getD default).total_calories = 350
    ∧ ((Svc.analyze_meal Svc.twoFoodRaws).getD default).avg_confidence = 7 := by
  have hEq : Svc.analyze_meal Svc.twoFoodRaws =
      some ((Svc.analyze_meal Svc.twoFoodRaws).getD default) := rfl
  refine ⟨hEq, (C6_totals_and_mean Svc.twoFoodRaws _ hEq).1.1, ?_, ?_⟩ <;>
    norm_num +decide [Svc.analyze_meal, Svc.process_raw_foods,
      Svc.processRawFood, Svc.twoFoodRaws, Svc.calculate_scaling_factor,
      Svc.unitFactor, Svc.UNIT_CONVERSIONS, Svc.scale_nutrition,
      Svc.nutrition_keys, Svc.nutrGet, Svc.totalKey, List.lookup,
      List.filterMap_cons, List.filterMap_nil]

/-- C9: a raw food whose five top-level keys are present but which lacks a
nested amount or unit key inside standard_serving or user_consumed is still
included by process_raw_foods: calculate_scaling_factor absorbs the missing
key internally and falls back to scaling factor 1.0. -/
theorem C9_nested_missing_key_included (r : Svc.RawFood)
    (s u : Svc.RawServing)
    (hs : r.standard_serving = some s) (hu : r.user_consumed = some u)
    (hn : r.food_name.isSome = true) (hc : r.confidence_score.isSome = true)
    (ht : r.source_notes.isSome = true)
    (hmiss : s.amount = none ∨ s.unit = none ∨ u.amount = none ∨
      u.unit = none) :
    Svc.calculate_scaling_factor s u = 1
    ∧ ∃ pf, Svc.processRawFood r = some pf ∧ pf.scaling_factor = 1 := by
  have hfac : Svc.calculate_scaling_factor s u = 1 := by
    unfold Svc.calculate_scaling_factor
    rcases h1 : s.amount with _ | sa <;> rcases h2 : s.unit with _ | su <;>
      rcases h3 : u.amount with _ | ua <;> rcases h4 : u.unit with _ | uu <;>
      first
      | rfl
      | (exfalso; rcases hmiss with h | h | h | h <;> simp_all)
  refine ⟨hfac, ?_⟩
  obtain ⟨n, hn'⟩ := Option.isSome_iff_exists.mp hn
  obtain ⟨c, hc'⟩ := Option.isSome_iff_exists.mp hc
  obtain ⟨t, ht'⟩ := Option.isSome_iff_exists.mp ht
  refine ⟨{ food_name := n, standard_serving := s, user_consumed := u,
            calculated_nutrition :=
              Svc.scale_nutrition s (Svc.calculate_scaling_factor s u),
            scaling_factor := Svc.calculate_scaling_factor s u,
            confidence_score := c, source_notes := t }, ?_, hfac⟩
  unfold Svc.processRawFood
  rw [hs, hu, hn', hc', ht']

/-- Witness for C9: a banana record whose standard_serving lacks its unit
key is kept with scaling factor 1.0. -/
theorem C9_nested_missing_key_included_witness :
    Svc.calculate_scaling_factor Svc.missingUnitServing Svc.pieceServing = 1
    ∧ ∃ pf, Svc.processRawFood Svc.missingUnitRaw = some pf ∧
        pf.scaling_factor = 1 :=
  C9_nested_missing_key_included Svc.missingUnitRaw Svc.missingUnitServing
    Svc.pieceServing rfl rfl rfl rfl rfl (Or.inr (Or.inl rfl))

/-- C10: process_raw_foods returns exactly the well-formed records, in
input order (the well-formed records form an order-preserving sublist of
the input, each mapped to its processed form), and analyze_meal hands that
list through unchanged as the processed_foods of its MealAnalysis. -/
theorem C10_order_preserved (raw_foods : List Svc.RawFood) :
    Svc.process_raw_foods raw_foods =
      (raw_foods.filter Svc.is_well_formed).map Svc.mk_processed
    ∧ (raw_foods.filter Svc.is_well_formed).Sublist raw_foods
    ∧ ∀ m, Svc.analyze_meal raw_foods = some m →
        m.processed_foods = Svc.process_raw_foods raw_foods := by
  refine ⟨?_, List.filter_sublist _, ?_⟩
  · induction raw_foods with
    | nil => rfl
    | cons r t ih =>
      unfold Svc.process_raw_foods at ih ⊢
      cases h : Svc.is_well_formed r with
      | true =>
        rw [List.filterMap_cons, processRawFood_eq_mk r h, List.filter_cons,
          if_pos h, List.map_cons, ih]
      | false =>
        rw [List.filterMap_cons, processRawFood_eq_none r h, List.filter_cons,
          if_neg (by simp [h]), ih]
  · intro m hm
    simp only [Svc.analyze_meal] at hm
    split at hm
    · exact Option.noConfusion hm
    split at hm
    · exact Option.noConfusion hm
    · injection hm with hm
      subst hm
      rfl

/-- Witness for C10: on two well-formed records followed by a malformed
one, the processed list is the mapped filtered list, the filtered list is a
sublist of the input, and the analysis carries the processed list. -/
theorem C10_order_preserved_witness :
    Svc.process_raw_foods Svc.mixedRaws =
      (Svc.mixedRaws.filter Svc.is_well_formed).map Svc.mk_processed
    ∧ (Svc.mixedRaws.filter Svc.is_well_formed).Sublist Svc.mixedRaws
    ∧ Svc.analyze_meal Svc.mixedRaws =
      some ((Svc.analyze_meal Svc.mixedRaws).getD default)
    ∧ ((Svc.analyze_meal Svc.mixedRaws).getD default).processed_foods =
      Svc.process_raw_foods Svc.mixedRaws := by
  have hEq : Svc.analyze_meal Svc.mixedRaws =
      some ((Svc.analyze_meal Svc.mixedRaws).getD default) := rfl
  exact ⟨(C10_order_preserved Svc.mixedRaws).1,
    (C10_order_preserved Svc.mixedRaws).2.1, hEq,
    (C10_order_preserved Svc.mixedRaws).2.2 _ hEq⟩

/-- C2: the aggregator keeps exactly the records that parse (a malformed
record - missing required key or unparseable numeric - is dropped and the
rest of the meal is unaffected), and it fails precisely when zero records
survive. -/
theorem C2_aggregate_resilient (records : List Spec.RawRecord) :
    (∀ m avg, Spec.aggregate records = some (m, avg) →
      m.foods = records.filterMap Spec.parseRecord)
    ∧ (Spec.aggregate records = none ↔
      records.filterMap Spec.parseRecord = [])
    ∧ ∀ xs ys r, records = xs ++ r :: ys → Spec.parseRecord r = none →
        Spec.aggregate records = Spec.aggregate (xs ++ ys) := by
  refine ⟨?_, ?_, ?_⟩
  · intro m avg hm
    simp only [Spec.aggregate] at hm
    split at hm
    · exact Option.noConfusion hm
    · simp only [Option.some.injEq, Prod.mk.injEq] at hm
      obtain ⟨hm1, _⟩ := hm
      subst hm1
      rfl
  · simp only [Spec.aggregate]
    by_cases h : (records.filterMap Spec.parseRecord).isEmpty
    · rw [if_pos h]
      simpa using List.isEmpty_iff.mp h
    · rw [if_neg h]
      constructor
      · intro habs
        exact Option.noConfusion habs
      · intro hnil
        exact absurd (List.isEmpty_iff.mpr hnil) h
  · intro xs ys r hrec hr
    subst hrec
    simp only [Spec.aggregate, List.filterMap_append, List.filterMap_cons, hr]

/-- Witness for C2: on a good record followed by a record lacking its
standard_serving key, the aggregator succeeds with exactly the surviving
parsed food, and dropping the malformed record leaves the result
unchanged. -/
theorem C2_aggregate_resilient_witness :
    Spec.aggregate [Spec.goodRecord, Spec.badRecord] =
      some (((Spec.aggregate [Spec.goodRecord, Spec.badRecord]).getD
          default).1,
        ((Spec.aggregate [Spec.goodRecord, Spec.badRecord]).getD default).2)
    ∧ ((Spec.aggregate [Spec.goodRecord, Spec.badRecord]).getD
        default).1.foods =
      [Spec.goodRecord, Spec.badRecord].filterMap Spec.parseRecord
    ∧ Spec.aggregate [Spec.goodRecord, Spec.badRecord] =
      Spec.aggregate ([Spec.goodRecord] ++ []) := by
  have hEq : Spec.aggregate [Spec.goodRecord, Spec.badRecord] =
      some (((Spec.aggregate [Spec.goodRecord, Spec.badRecord]).getD
          default).1,
        ((Spec.aggregate [Spec.goodRecord, Spec.badRecord]).getD
          default).2) := rfl
  exact ⟨hEq,
    (C2_aggregate_resilient [Spec.goodRecord, Spec.badRecord]).1 _ _ hEq,
    (C2_aggregate_resilient [Spec.goodRecord, Spec.badRecord]).2.2
      [Spec.goodRecord] [] Spec.badRecord rfl rfl⟩

end AIFoodLog
